import Mathlib

/-!
Shallow embedding of the bdmep_api repository (a client for the Brazilian
INMET BDMEP meteorological data service) and proofs about its
selector-resolution and payload-building logic.

The repository contains three historical variants of the same client:
* `api.py`          - free functions `available_variables`, `available_stations`,
                      `var_codes`, `st_codes`, `gen_payload` (namespace `Api`);
* `bdmep.py`        - class `BDmep` with `_attr_aliases`, `query_sts`,
                      `__attr_codes`, `__st_codes` (namespace `Cls`);
* `bdmep/` package  - `modals.py` (`AttrAliases`, `Attribute`, `Station`) and
                      `bdmep.py` (`_parse_attrs`, `_parse_sts`,
                      `prepare_payload`) (namespace `Pkg`).

Network I/O is abstracted by passing the fetched catalog (or a fetch
function) as an argument; Python exceptions are modelled with `Except PyErr`.
-/

/-- Python exceptions raised by the code under verification. -/
inductive PyErr where
  | valueError (msg : String)
  | typeError (msg : String)
  | keyError (key : String)
  | attributeError (msg : String)
  | exception (msg : String)
  deriving DecidableEq, Repr

/-- Python `str.upper` on the ASCII strings handled by this client. -/
def pyUpper (s : String) : String := String.mk (s.toList.map Char.toUpper)

/-- Python `str.lower` on the ASCII strings handled by this client. -/
def pyLower (s : String) : String := String.mk (s.toList.map Char.toLower)

/-- Python `str.strip`: removes leading and trailing whitespace. -/
def pyStrip (s : String) : String :=
  String.mk (((s.toList.dropWhile Char.isWhitespace).reverse.dropWhile Char.isWhitespace).reverse)

/-- Transliteration pairs of the `unidecode` library restricted to the
Latin-1 accented letters that occur in Brazilian city names; `unidecode`
maps each of them to its unaccented ASCII base letter. -/
def accentTable : List (Char × Char) :=
  [('á', 'a'), ('à', 'a'), ('â', 'a'), ('ã', 'a'), ('ä', 'a'),
   ('é', 'e'), ('è', 'e'), ('ê', 'e'), ('ë', 'e'),
   ('í', 'i'), ('ì', 'i'), ('î', 'i'), ('ï', 'i'),
   ('ó', 'o'), ('ò', 'o'), ('ô', 'o'), ('õ', 'o'), ('ö', 'o'),
   ('ú', 'u'), ('ù', 'u'), ('û', 'u'), ('ü', 'u'),
   ('ç', 'c'),
   ('Á', 'A'), ('À', 'A'), ('Â', 'A'), ('Ã', 'A'), ('Ä', 'A'),
   ('É', 'E'), ('È', 'E'), ('Ê', 'E'), ('Ë', 'E'),
   ('Í', 'I'), ('Ì', 'I'), ('Î', 'I'), ('Ï', 'I'),
   ('Ó', 'O'), ('Ò', 'O'), ('Ô', 'O'), ('Õ', 'O'), ('Ö', 'O'),
   ('Ú', 'U'), ('Ù', 'U'), ('Û', 'U'), ('Ü', 'U'),
   ('Ç', 'C')]

/-- Model of the `unidecode` library on a single character: accented Latin
letters are replaced by their base letter, every other character is kept. -/
def unidecodeChar (c : Char) : Char :=
  match accentTable.find? (fun p => p.1 == c) with
  | some p => p.2
  | none => c

/-- Model of `unidecode.unidecode`: character-wise ASCII transliteration. -/
def unidecode (s : String) : String := String.mk (s.toList.map unidecodeChar)

/-- Model of Python `re.match(r"I\d{3}", s, flags=re.I)` viewed as a boolean:
the string starts with `I` or `i` followed by three ASCII digits (anything may
follow, since `re.match` only anchors at the start). -/
def attrCodeRe (s : String) : Bool :=
  match s.toList with
  | c0 :: c1 :: c2 :: c3 :: _ =>
    (c0 == 'I' || c0 == 'i') && c1.isDigit && c2.isDigit && c3.isDigit
  | _ => false

/-- Model of Python `re.match(r"[A-Z]\d{3}", s, flags=re.I)` viewed as a
boolean: the string starts with an ASCII letter followed by three digits. -/
def stCodeRe (s : String) : Bool :=
  match s.toList with
  | c0 :: c1 :: c2 :: c3 :: _ =>
    c0.isAlpha && c1.isDigit && c2.isDigit && c3.isDigit
  | _ => false

/-- Character class `[ a-z]` of the city-state pattern under `re.I`:
a space or an ASCII letter of either case. -/
def cityChar (c : Char) : Bool := c == ' ' || c.isAlpha

/-- Tail of the city-state pattern after group 1: `[^a-z]?([A-Z]{2})$` under
`re.I`, with the greedy optional separator tried first.  Returns group 2 when
the remaining characters match. -/
def cityTail : List Char → Option String
  | [b, c1, c2] =>
    if !b.isAlpha && c1.isAlpha && c2.isAlpha then some (String.mk [c1, c2]) else none
  | [c1, c2] =>
    if c1.isAlpha && c2.isAlpha then some (String.mk [c1, c2]) else none
  | _ => none

/-- Backtracking over the greedy group 1 `([ a-z]+)` of the city-state
pattern: the longest candidate prefix is tried first, exactly as Python's
backtracking regex engine does. -/
def cityStGo (cs : List Char) : Nat → Option (String × String)
  | 0 => none
  | Nat.succ k =>
    match cityTail (cs.drop (k + 1)) with
    | some g2 => some (String.mk (cs.take (k + 1)), g2)
    | none => cityStGo cs k

/-- Model of Python `re.match(r"^([ a-z]+)[^a-z]?([A-Z]{2})$", s, flags=re.I)`:
returns `(group 1, group 2)` for a matching string, `none` otherwise. -/
def cityStRe (s : String) : Option (String × String) :=
  cityStGo s.toList ((s.toList.takeWhile cityChar).length)

/-- The frequency table `["h", "d", "m"]` shared by every variant. -/
def freqTypes : List String := ["h", "d", "m"]

/-- The station-type table `["automatic", "conventional"]`. -/
def stTypes : List String := ["automatic", "conventional"]

/-- The five fixed region codes as they appear in `api.py`. -/
def regionsUpper : List String := ["N", "NO", "S", "SU", "CO"]

/-- Attribute catalog record: the two keys of the JSON objects returned by
the attribute endpoint that the resolvers consult (`CODIGO`, `DESCRICAO`);
the remaining keys (`TIPO_GERACAO`, `PERIODICIDADE`, `UNIDADE`, `CLASSE`)
are never read by the resolution logic. -/
structure AttrEntry where
  CODIGO : String
  DESCRICAO : String
  deriving DecidableEq, Repr

/-- Station catalog record: the three keys of the JSON objects returned by
the station endpoint that the resolvers consult (`CD_ESTACAO`, `DC_NOME`,
`SG_ESTADO`); the remaining keys (coordinates, dates, identifiers) are
never read by the resolution logic. -/
structure StEntry where
  CD_ESTACAO : String
  DC_NOME : String
  SG_ESTADO : String
  deriving DecidableEq, Repr

/-- The selector argument accepted by the class-based resolvers: either the
string sentinel `"all"` or an explicit list of selector strings. -/
inductive Selector where
  | all
  | list (items : List String)
  deriving DecidableEq, Repr

/-- Alias table for hourly automatic attributes, as written in `api.py`
`var_codes` and `bdmep.py` `_attr_aliases`. -/
def hourlyAliases : List (String × String) :=
  [("rain", "I175"), ("P_mean", "I106"), ("P_max", "I615"), ("P_min", "I616"),
   ("T_mean", "I101"), ("T_max", "I611"), ("T_min", "I612"), ("R_s", "I133"),
   ("RH_mean", "I105"), ("RH_max", "I617"), ("RH_min", "I618"),
   ("U_mean", "I111"), ("U_max", "I608")]

/-- Alias table for daily automatic attributes. -/
def dailyAliases : List (String × String) :=
  [("rain", "I006"), ("P_mean", "I109"), ("T_mean", "I104"), ("T_max", "I007"),
   ("T_min", "I008"), ("RH_mean", "I120"), ("RH_min", "I256"),
   ("U_mean", "I009"), ("U_max", "I621")]

/-- Alias table for monthly automatic attributes. -/
def monthlyAliases : List (String × String) :=
  [("days_raining", "I230"), ("rain", "I209"), ("P_mean", "I219"),
   ("T_mean", "I220"), ("U_mean", "I218"), ("U_max", "I221")]

namespace Pkg

/-- One member of the `AttrAliases` enum of `bdmep/modals.py`: the member
name is the attribute code and the value is the tuple
`(alias, freq, st_type)`. -/
structure AliasEntry where
  code : String
  «alias» : String
  freq : String
  st_type : String
  deriving DecidableEq, Repr

/-- The members of the `AttrAliases` enum of `bdmep/modals.py`, in
declaration order. -/
def aliasMembers : List AliasEntry :=
  [⟨"I175", "rain", "h", "automatic"⟩, ⟨"I106", "P_mean", "h", "automatic"⟩,
   ⟨"I615", "P_max", "h", "automatic"⟩, ⟨"I616", "P_min", "h", "automatic"⟩,
   ⟨"I101", "T_mean", "h", "automatic"⟩, ⟨"I611", "T_max", "h", "automatic"⟩,
   ⟨"I612", "T_min", "h", "automatic"⟩, ⟨"I133", "R_s", "h", "automatic"⟩,
   ⟨"I105", "RH_mean", "h", "automatic"⟩, ⟨"I617", "RH_max", "h", "automatic"⟩,
   ⟨"I618", "RH_min", "h", "automatic"⟩, ⟨"I111", "U_mean", "h", "automatic"⟩,
   ⟨"I608", "U_max", "h", "automatic"⟩,
   ⟨"I006", "rain", "d", "automatic"⟩, ⟨"I109", "P_mean", "d", "automatic"⟩,
   ⟨"I104", "T_mean", "d", "automatic"⟩, ⟨"I007", "T_max", "d", "automatic"⟩,
   ⟨"I008", "T_min", "d", "automatic"⟩, ⟨"I120", "RH_mean", "d", "automatic"⟩,
   ⟨"I256", "RH_min", "d", "automatic"⟩, ⟨"I009", "U_mean", "d", "automatic"⟩,
   ⟨"I621", "U_max", "d", "automatic"⟩,
   ⟨"I230", "days_raining", "m", "automatic"⟩, ⟨"I209", "rain", "m", "automatic"⟩,
   ⟨"I219", "P_mean", "m", "automatic"⟩, ⟨"I220", "T_mean", "m", "automatic"⟩,
   ⟨"I218", "U_mean", "m", "automatic"⟩, ⟨"I221", "U_max", "m", "automatic"⟩]

/-- Model of `AttrAliases.lookup_code_by_alias`: Python performs an enum
lookup by value `AttrAliases((alias, freq, st_type))` and returns the member
`name` (the code), or `None` when no member has that value. -/
def lookup_code_by_alias («alias» freq st_type : String) : Option String :=
  (aliasMembers.find?
    (fun m => m.«alias» == «alias» && m.freq == freq && m.st_type == st_type)).map
    (fun m => m.code)

/-- Model of `AttrAliases.lookup_alias_by_code`: Python performs an enum
lookup by member name `AttrAliases[code]` and returns `.name` again - the
member name, which is the code itself, NOT the alias stored in the member
value - or `None` when the code is not a member (the `KeyError` branch). -/
def lookup_alias_by_code (code : String) : Option String :=
  (aliasMembers.find? (fun m => m.code == code)).map (fun m => m.code)

/-- The attribute JSON object consumed by `Attribute.from_dict`, with the
five keys it reads. -/
structure AttrJson where
  CODIGO : String
  PERIODICIDADE : String
  UNIDADE : String
  DESCRICAO : String
  CLASSE : String
  deriving DecidableEq, Repr

/-- The `Attribute` dataclass of `bdmep/modals.py`. -/
structure Attribute where
  code : String
  freq : String
  unit : String
  desc : String
  class_ : String
  «alias» : Option String := none
  deriving DecidableEq, Repr

/-- Model of `Attribute.from_dict`: field extraction plus the alias
annotation via `AttrAliases.lookup_alias_by_code`. -/
def Attribute.from_dict (j : AttrJson) : Attribute :=
  { code := j.CODIGO, freq := j.PERIODICIDADE, unit := j.UNIDADE,
    desc := j.DESCRICAO, class_ := j.CLASSE,
    «alias» := lookup_alias_by_code j.CODIGO }

/-- The `Station` dataclass of `bdmep/modals.py`, restricted to the fields
consulted by `_parse_sts` (`code`, `city`, `state`); the remaining fields
(station type, region, status, entity, WMO identifiers, coordinates,
operation dates, attribute list) are never read by the resolution or
payload logic. -/
structure Station where
  code : String
  city : String
  state : String
  deriving DecidableEq, Repr

end Pkg

namespace Api

/-- Error message of the unconditional `raise` in `var_codes` when no alias
table matches the (frequency, station type) pair. -/
def aliasOnlyAutoMsg : String := "Error. Aliases are only supported with st=automatic"

/-- Error message of the alias-under-conventional branch inside the
selector loop of `var_codes`. -/
def aliasConvMsg : String := "Error. Variable aliases currently only work for automatic stations."

/-- Error message of the description branch of `var_codes`. -/
def invalidDescMsg : String := "Invalid description."

/-- Message of the `AttributeError` Python raises when `.upper()` is called
on `None`. -/
def noneUpperMsg : String := "NoneType object has no attribute upper"

/-- Message of the `TypeError` Python raises when `map` is applied to `None`. -/
def noneIterMsg : String := "NoneType object is not iterable"

/-- Model of the description branch of `var_codes` (`api.py` lines 141-146):
Python iterates over the whole catalog and, for EACH entry, either appends
the entry code (description equal) or raises immediately (description not
equal), so the loop only completes when every entry matches. -/
def descLoop (catalog : List AttrEntry) (var : String) :
    List String → Except PyErr (List String)
  | codes =>
    match catalog with
    | [] => Except.ok codes
    | v :: rest =>
      if v.DESCRICAO == var then descLoop rest var (codes ++ [v.CODIGO])
      else Except.error (PyErr.exception invalidDescMsg)

/-- Model of the selector loop of `var_codes` (`api.py` lines 130-146):
alias membership is tested first (with the exact station-type string), then
the attribute-code pattern (appending the selector VERBATIM, with no catalog
membership check), and finally the description loop. -/
def varLoop (catalog : List AttrEntry) (aliases : List (String × String)) (st : String) :
    List String → List String → Except PyErr (List String)
  | [], codes => Except.ok codes
  | var :: rest, codes =>
    match aliases.lookup var with
    | some code =>
      if st == "automatic" then varLoop catalog aliases st rest (codes ++ [code])
      else if st == "conventional" then Except.error (PyErr.exception aliasConvMsg)
      else if attrCodeRe var then varLoop catalog aliases st rest (codes ++ [var])
      else
        match descLoop catalog var codes with
        | Except.ok codes2 => varLoop catalog aliases st rest codes2
        | Except.error e => Except.error e
    | none =>
      if attrCodeRe var then varLoop catalog aliases st rest (codes ++ [var])
      else
        match descLoop catalog var codes with
        | Except.ok codes2 => varLoop catalog aliases st rest codes2
        | Except.error e => Except.error e

/-- Model of `var_codes(freq, st, variables)` of `api.py`.  The attribute
catalog fetched by `available_variables(freq, st)` is passed as `catalog`.
The alias table is selected by `(freq.lower(), st)` BEFORE `variables` is
inspected, and every branch requires `st == "automatic"`, so the function
raises for a conventional station type even when `variables` is `None`. -/
def var_codes (catalog : List AttrEntry) (freq st : String)
    («variables» : Option (List String)) : Except PyErr (List String) :=
  if freqTypes.contains (pyLower freq) = false then
    Except.error (PyErr.valueError "Invalid frequency type.")
  else if stTypes.contains (pyLower st) = false then
    Except.error (PyErr.valueError "Invalid station type.")
  else if pyLower freq == "h" && st == "automatic" then
    match «variables» with
    | none => Except.ok (catalog.map (fun e => e.CODIGO))
    | some vars => varLoop catalog hourlyAliases st vars []
  else if pyLower freq == "d" && st == "automatic" then
    match «variables» with
    | none => Except.ok (catalog.map (fun e => e.CODIGO))
    | some vars => varLoop catalog dailyAliases st vars []
  else if pyLower freq == "m" && st == "automatic" then
    match «variables» with
    | none => Except.ok (catalog.map (fun e => e.CODIGO))
    | some vars => varLoop catalog monthlyAliases st vars []
  else Except.error (PyErr.exception aliasOnlyAutoMsg)

/-- The `st_types` URL-fragment table of `available_stations`. -/
def stFragTable : List (String × String) := [("automatic", "/T/R/"), ("conventional", "/M/R/")]

/-- Model of `available_stations(st_type, region)` of `api.py`.  `fetch`
abstracts one GET request, keyed by the station-type URL fragment and the
region string; the result pairs the list of issued requests with the
stations returned.  The region guard is written
`region.upper() not in regions and region is not None`, so Python evaluates
`region.upper()` FIRST and raises `AttributeError` whenever `region` is
`None`; the all-regions loop that follows (lines 48-54) is therefore
unreachable and is not part of the reachable semantics modelled here.
For a given region the single request uses the region string verbatim. -/
def available_stations (fetch : String → String → List StEntry) (st_type : String)
    (region : Option String) : Except PyErr (List (String × String) × List StEntry) :=
  if stTypes.contains (pyLower st_type) = false then
    Except.error (PyErr.valueError "Invalid station type.")
  else
    match region with
    | none => Except.error (PyErr.attributeError noneUpperMsg)
    | some r =>
      if regionsUpper.contains (pyUpper r) = false then
        Except.error (PyErr.valueError "Invalid region.")
      else
        match stFragTable.lookup st_type with
        | none => Except.error (PyErr.keyError st_type)
        | some frag => Except.ok ([(frag, r)], fetch frag r)

/-- Model of the selector loop of `st_codes` (`api.py` lines 187-199): each
selector must match the city-state pattern (there is no station-code branch
in this variant); `codes` is REASSIGNED to the comprehension on every
iteration, and the comprehension collects the code of EVERY catalog entry
whose state equals group 2 uppercased and whose city equals group 1
uppercased (no `.strip()` in this variant). -/
def stLoop (stations_request : List StEntry) :
    List String → List String → Except PyErr (List String)
  | [], codes => Except.ok codes
  | station :: rest, _codes =>
    match cityStRe station with
    | some g =>
      stLoop stations_request rest
        ((stations_request.filter
          (fun e => e.SG_ESTADO == pyUpper g.2 && e.DC_NOME == pyUpper g.1)).map
          (fun e => e.CD_ESTACAO))
    | none =>
      Except.error (PyErr.valueError "Invalid stations. Expected a city followed by the state double char code.")

/-- Model of `st_codes(st, region, sts)` of `api.py`.  The region guard has
the same inverted `None` check as `available_stations`, and the `sts` guard
applies `map` to `sts` before its own `None` check, so both `region=None`
and `sts=None` raise before any request is made; the reachable path takes a
valid region and an explicit selector list. -/
def st_codes (fetch : String → String → List StEntry) (st : String)
    (region : Option String) (sts : Option (List String)) : Except PyErr (List String) :=
  if stTypes.contains (pyLower st) = false then
    Except.error (PyErr.valueError "Invalid station type.")
  else
    match region with
    | none => Except.error (PyErr.attributeError noneUpperMsg)
    | some r =>
      if regionsUpper.contains (pyUpper r) = false then
        Except.error (PyErr.valueError "Invalid region.")
      else
        match sts with
        | none => Except.error (PyErr.typeError noneIterMsg)
        | some stsList =>
          match available_stations fetch st (some r) with
          | Except.error e => Except.error e
          | Except.ok res => stLoop res.2 stsList []

/-- A date argument of `gen_payload`: either a `datetime.date`/`datetime.datetime`
value (collapsed to its date part, as the code does) or a string. -/
inductive DateArg where
  | date (y m d : Nat)
  | str (s : String)
  deriving DecidableEq, Repr

/-- Gregorian leap-year rule used by `datetime`. -/
def isLeap (y : Nat) : Bool := (y % 4 == 0 && y % 100 != 0) || y % 400 == 0

/-- Number of days of a month, as validated by the `datetime` constructor. -/
def daysInMonth (y m : Nat) : Nat :=
  if m == 2 then (if isLeap y then 29 else 28)
  else if m == 4 || m == 6 || m == 9 || m == 11 then 30
  else 31

/-- Digit-string to number conversion for the strptime model. -/
def digitsToNat? (cs : List Char) : Option Nat :=
  if cs.isEmpty = false && cs.all Char.isDigit then
    some (cs.foldl (fun n c => n * 10 + (c.toNat - 48)) 0)
  else none

/-- Model of `datetime.datetime.strptime(s, "%Y-%m-%d")` viewed as a
validator: `%Y` takes exactly four digits, `%m` and `%d` take one or two
digits in range, and the `datetime` constructor then checks the day against
the month length and the year against `MINYEAR`. -/
def strptimeYMD (s : String) : Option (Nat × Nat × Nat) :=
  match s.splitOn "-" with
  | [ys, ms, ds] =>
    match digitsToNat? ys.toList, digitsToNat? ms.toList, digitsToNat? ds.toList with
    | some y, some m, some d =>
      if ys.length == 4 && ms.length ≤ 2 && ds.length ≤ 2 &&
          1 ≤ y && 1 ≤ m && m ≤ 12 && 1 ≤ d && d ≤ daysInMonth y m then
        some (y, m, d)
      else none
    | _, _, _ => none
  | _ => none

/-- A decimal digit, zero-padded to two characters, as `str(date)` prints. -/
def pad2 (n : Nat) : String := if n < 10 then "0" ++ toString n else toString n

/-- Python `str(datetime.date(y, m, d))`: ISO `YYYY-MM-DD`. -/
def dateToStr (y m d : Nat) : String :=
  (if y < 10 then "000" else if y < 100 then "00" else if y < 1000 then "0" else "")
    ++ toString y ++ "-" ++ pad2 m ++ "-" ++ pad2 d

/-- Date normalization of `gen_payload`: a date value becomes its ISO
string, a string is validated by strptime and kept unchanged, per the
`isinstance` ladder of `api.py` lines 240-260. -/
def normDate (d : DateArg) : Except PyErr String :=
  match d with
  | DateArg.date y m dd => Except.ok (dateToStr y m dd)
  | DateArg.str s =>
    match strptimeYMD s with
    | some _ => Except.ok s
    | none => Except.error (PyErr.valueError "time data does not match format Y-m-d")

/-- The decimal-separator table of `gen_payload`, in source order. -/
def decimalApi : List (String × String) := [(",", "V"), (".", "P")]

/-- The station-type marker table of `gen_payload`. -/
def stMarkTable : List (String × String) := [("automatic", "T"), ("conventional", "M")]

/-- The payload dictionary built by `gen_payload`. -/
structure Payload where
  email : String
  tipo_dados : String
  tipo_estacao : String
  variaveis : List String
  estacoes : List String
  data_inicio : String
  data_fim : String
  tipo_pontuacao : String
  deriving DecidableEq, Repr

/-- Model of `gen_payload` of `api.py`: frequency, station-type and decimal
guards run first (so an invalid `dec` raises `ValueError` before the dates
are parsed and before the payload is assembled), then both dates are
normalized, then the payload dictionary is evaluated in key order -
`st_types[st]` (an exact-key lookup that can raise `KeyError`), then
`var_codes`, then `decimal[dec]`. -/
def gen_payload (catalog : List AttrEntry) (email freq st : String)
    (in_date fn_date : DateArg) (dec : String) (var_sel : Option (List String))
    (st_sel : List String) : Except PyErr Payload :=
  if freqTypes.contains (pyLower freq) = false then
    Except.error (PyErr.valueError "Invalid frequency type.")
  else if stTypes.contains (pyLower st) = false then
    Except.error (PyErr.valueError "Invalid station type.")
  else if (decimalApi.lookup dec).isSome = false then
    Except.error (PyErr.valueError "Invalid decimal.")
  else
    match normDate in_date with
    | Except.error e => Except.error e
    | Except.ok ind =>
      match normDate fn_date with
      | Except.error e => Except.error e
      | Except.ok fnd =>
        match stMarkTable.lookup st with
        | none => Except.error (PyErr.keyError st)
        | some tEst =>
          match var_codes catalog freq st var_sel with
          | Except.error e => Except.error e
          | Except.ok vars =>
            match decimalApi.lookup dec with
            | none => Except.error (PyErr.keyError dec)
            | some tp =>
              Except.ok
                { email := email, tipo_dados := pyUpper freq, tipo_estacao := tEst,
                  variaveis := vars, estacoes := st_sel, data_inicio := ind,
                  data_fim := fnd, tipo_pontuacao := tp }

end Api

namespace Cls

/-- The lower-case region table of the `BDmep` class (`bdmep.py` line 17). -/
def regions : List String := ["n", "no", "s", "su", "co"]

/-- Error message of the unresolved-attribute branches of `__attr_codes`. -/
def attrUnresolvedMsg : String := "Parameter given does not correspond to any attribute."

/-- Error message of the unresolved-station branches of `__st_codes`. -/
def stUnresolvedMsg : String := "Parameter given does not correspond to any station."

/-- Error message of the invalid-format branch of `__st_codes`. -/
def stFormatMsg : String := "Invalid stations. Expected a city state or a station code."

/-- Message of the `TypeError` Python raises for `x in None`. -/
def noneMembershipMsg : String := "argument of type NoneType is not iterable"

/-- Model of `BDmep._attr_aliases` (`bdmep.py` lines 77-125): returns the
alias dictionary matching `(freq.lower(), st_type)` and falls off the end
(returning `None`) when no branch matches. -/
def attr_aliases (freq st_type : String) : Option (List (String × String)) :=
  if pyLower freq == "h" && st_type == "automatic" then some hourlyAliases
  else if pyLower freq == "d" && st_type == "automatic" then some dailyAliases
  else if pyLower freq == "m" && st_type == "automatic" then some monthlyAliases
  else none

/-- Model of the `_aliases` initialisation in `BDmep.__init__` (line 62):
`self._attr_aliases() if self.st_type == "automatic" else None`. -/
def init_aliases (freq st_type : String) : Option (List (String × String)) :=
  if st_type == "automatic" then attr_aliases freq st_type else none

/-- Model of the selector loop of `BDmep.__attr_codes` (`bdmep.py` lines
187-212).  Alias membership `selector in self._aliases` is tested first:
when `_aliases` is `None` (conventional station type) this membership test
itself raises `TypeError`.  Otherwise the attribute-code pattern branch
appends the code of the FIRST catalog entry equal to `selector.upper()`
(the `next(...)` idiom) and raises `ValueError` when there is none, and the
description branch does the same with a case-insensitive description
comparison. -/
def attrLoop (attr_response : List AttrEntry) (aliases : Option (List (String × String))) :
    List String → List String → Except PyErr (List String)
  | [], codes => Except.ok codes
  | sel :: rest, codes =>
    match aliases with
    | none => Except.error (PyErr.typeError noneMembershipMsg)
    | some al =>
      match al.lookup sel with
      | some code => attrLoop attr_response aliases rest (codes ++ [code])
      | none =>
        if attrCodeRe sel then
          match attr_response.find? (fun e => e.CODIGO == pyUpper sel) with
          | some e => attrLoop attr_response aliases rest (codes ++ [e.CODIGO])
          | none => Except.error (PyErr.valueError attrUnresolvedMsg)
        else
          match attr_response.find? (fun e => pyLower e.DESCRICAO == pyLower sel) with
          | some e => attrLoop attr_response aliases rest (codes ++ [e.CODIGO])
          | none => Except.error (PyErr.valueError attrUnresolvedMsg)

/-- Model of `BDmep.__attr_codes` (`bdmep.py` lines 162-213): an empty (or
falsy) selector yields `[]`, the `"all"` sentinel yields every catalog code
in order, and otherwise the selector loop runs. -/
def attr_codes (attr_response : List AttrEntry) (aliases : Option (List (String × String))) :
    Selector → Except PyErr (List String)
  | Selector.all => Except.ok (attr_response.map (fun e => e.CODIGO))
  | Selector.list sels =>
    if sels.isEmpty then Except.ok []
    else attrLoop attr_response aliases sels []

/-- Model of the selector loop of `BDmep.__st_codes` (`bdmep.py` lines
235-265).  Each selector is first normalized with `unidecode`; the
city-state branch is tried FIRST and appends the code of the FIRST catalog
entry whose state equals group 2 `.upper().strip()` and whose city equals
group 1 `.upper().strip()` (the `next(...)` idiom), raising `ValueError`
when no entry matches; the station-code branch appends the code of the
first entry equal to `selector.upper()`; anything else is a format error. -/
def stLoop (st_response : List StEntry) :
    List String → List String → Except PyErr (List String)
  | [], codes => Except.ok codes
  | sel :: rest, codes =>
    match cityStRe (unidecode sel) with
    | some g =>
      match st_response.find?
          (fun e => e.SG_ESTADO == pyStrip (pyUpper g.2) && e.DC_NOME == pyStrip (pyUpper g.1)) with
      | some e => stLoop st_response rest (codes ++ [e.CD_ESTACAO])
      | none => Except.error (PyErr.valueError stUnresolvedMsg)
    | none =>
      if stCodeRe (unidecode sel) then
        match st_response.find? (fun e => e.CD_ESTACAO == pyUpper (unidecode sel)) with
        | some e => stLoop st_response rest (codes ++ [e.CD_ESTACAO])
        | none => Except.error (PyErr.valueError stUnresolvedMsg)
      else Except.error (PyErr.valueError stFormatMsg)

/-- Model of `BDmep.__st_codes` (`bdmep.py` lines 215-266): an empty
selector yields `[]`, the `"all"` sentinel yields every catalog code in
order, and otherwise the selector loop runs. -/
def st_codes (st_response : List StEntry) : Selector → Except PyErr (List String)
  | Selector.all => Except.ok (st_response.map (fun e => e.CD_ESTACAO))
  | Selector.list sels =>
    if sels.isEmpty then Except.ok []
    else stLoop st_response sels []

/-- Model of `BDmep.query_sts` (`bdmep.py` lines 141-160).  `fetch`
abstracts one GET request, keyed by the station-type URL fragment and the
uppercased region fragment; the result pairs the list of issued requests
with the concatenated stations.  With `region = None` the class iterates
over the five-entry region table in order, uppercasing each code; with a
region given it issues the single corresponding request. -/
def query_sts (fetch : String → String → List StEntry) (st_type : String)
    (region : Option String) : List (String × String) × List StEntry :=
  let st_frag := if st_type == "automatic" then "T/R" else "M/R"
  match region with
  | none =>
    regions.foldl
      (fun acc reg => (acc.1 ++ [(st_frag, pyUpper reg)], acc.2 ++ fetch st_frag (pyUpper reg)))
      ([], [])
  | some r => ([(st_frag, pyUpper r)], fetch st_frag (pyUpper r))

end Cls

namespace Pkg

/-- Error message of `_parse_attrs`. -/
def attrSelectorMsg : String := "Parameter attr_selector given does not correspond to any attribute."

/-- Error message of `_parse_sts`. -/
def stSelectorMsg : String := "Parameter st_selector given does not correspond to any station."

/-- Model of `BDmep._attributes_has_code` (`bdmep/bdmep.py` lines 80-84). -/
def attributes_has_code (attrs : List Attribute) (code : String) : Bool :=
  (attrs.map (fun a => a.code)).contains code

/-- Model of `BDmep._stations_has_code` (`bdmep/bdmep.py` lines 86-90). -/
def stations_has_code (sts : List Station) (code : String) : Bool :=
  (sts.map (fun s => s.code)).contains code

/-- Model of the selector loop of `_parse_attrs` (`bdmep/bdmep.py` lines
97-107): the attribute-code branch requires both the pattern match and an
exact (case-sensitive) catalog membership of the selector AS GIVEN, and
appends the selector verbatim; otherwise the walrus alias lookup runs, and
a `None` result raises `ValueError`. -/
def parseAttrsLoop (attrs : List Attribute) (freq st_type : String) :
    List String → List String → Except PyErr (List String)
  | [], attributes => Except.ok attributes
  | sel :: rest, attributes =>
    if attrCodeRe sel && attributes_has_code attrs sel then
      parseAttrsLoop attrs freq st_type rest (attributes ++ [sel])
    else
      match lookup_code_by_alias sel freq st_type with
      | some code => parseAttrsLoop attrs freq st_type rest (attributes ++ [code])
      | none => Except.error (PyErr.valueError attrSelectorMsg)

/-- Model of `BDmep._parse_attrs` (`bdmep/bdmep.py` lines 92-108): the
`"all"` sentinel yields every catalog code in order, otherwise the selector
loop runs and its accumulated list is returned. -/
def parse_attrs (attrs : List Attribute) (freq st_type : String) :
    Selector → Except PyErr (List String)
  | Selector.all => Except.ok (attrs.map (fun a => a.code))
  | Selector.list sels => parseAttrsLoop attrs freq st_type sels []

/-- One element of the local `stations` list built by `_parse_sts`: the
station-code branch appends a single code string while the city-state
branch appends a whole LIST of codes. -/
inductive StItem where
  | code (c : String)
  | codes (cs : List String)
  deriving DecidableEq, Repr

/-- Model of the selector loop of `_parse_sts` (`bdmep/bdmep.py` lines
117-133): each selector is normalized with `unidecode`; the station-code
branch (pattern plus exact catalog membership) is tried FIRST and appends
the selector itself; the city-state branch appends the list of codes of
ALL catalog entries whose state and city equal the stripped uppercased
groups; anything else raises `ValueError`. -/
def parseStsLoop (cat : List Station) :
    List String → List StItem → Except PyErr (List StItem)
  | [], stations => Except.ok stations
  | sel :: rest, stations =>
    if stCodeRe (unidecode sel) && stations_has_code cat (unidecode sel) then
      parseStsLoop cat rest (stations ++ [StItem.code (unidecode sel)])
    else
      match cityStRe (unidecode sel) with
      | some g =>
        parseStsLoop cat rest
          (stations ++ [StItem.codes
            ((cat.filter
              (fun st => st.state == pyStrip (pyUpper g.2) && st.city == pyStrip (pyUpper g.1))).map
              (fun st => st.code))])
      | none => Except.error (PyErr.valueError stSelectorMsg)

/-- Model of `BDmep._parse_sts` (`bdmep/bdmep.py` lines 112-136): the
`"all"` sentinel RETURNS every catalog code, but the explicit-list branch
runs the loop and then falls off the end of the function, so Python
returns `None` (the local `stations` list is discarded); only the raised
errors of the loop escape. -/
def parse_sts (cat : List Station) : Selector → Except PyErr (Option (List String))
  | Selector.all => Except.ok (some (cat.map (fun s => s.code)))
  | Selector.list sels =>
    match parseStsLoop cat sels [] with
    | Except.ok _ => Except.ok none
    | Except.error e => Except.error e

/-- The station-type marker table of `prepare_payload`. -/
def stMarkTable : List (String × String) := [("automatic", "T"), ("conventional", "M")]

/-- The decimal-separator table of `prepare_payload`, in source order. -/
def decimalNew : List (String × String) := [(".", "P"), (",", "V")]

/-- The payload dictionary built by `prepare_payload`; `estacoes` is
optional because `_parse_sts` returns `None` for explicit selector lists. -/
structure Payload where
  email : String
  tipo_dados : String
  tipo_estacao : String
  variaveis : List String
  estacoes : Option (List String)
  data_inicio : String
  data_fim : String
  tipo_pontuacao : String
  deriving DecidableEq, Repr

/-- Model of `BDmep.prepare_payload` (`bdmep/bdmep.py` lines 138-157):
`_parse_attrs` runs first, then `_parse_sts`, then the payload dictionary
is evaluated in key order - `st_types[self.st_type]` and
`decimal[dec]` are exact-key lookups that raise `KeyError` on a missing
key; there is NO validation of `dec` before assembly.  The date fields are
hardcoded empty strings in this variant. -/
def prepare_payload (attrs_catalog : List Attribute) (cat : List Station)
    (freq st_type email : String) (st_selector attr_selector : Selector)
    (dec : String) : Except PyErr Payload :=
  match parse_attrs attrs_catalog freq st_type attr_selector with
  | Except.error e => Except.error e
  | Except.ok attributes =>
    match parse_sts cat st_selector with
    | Except.error e => Except.error e
    | Except.ok stations =>
      match stMarkTable.lookup st_type with
      | none => Except.error (PyErr.keyError st_type)
      | some tEst =>
        match decimalNew.lookup dec with
        | none => Except.error (PyErr.keyError dec)
        | some tp =>
          Except.ok
            { email := email, tipo_dados := pyUpper freq, tipo_estacao := tEst,
              variaveis := attributes, estacoes := stations, data_inicio := "",
              data_fim := "", tipo_pontuacao := tp }

end Pkg

/-- Every transliteration output of the accent table is an unaccented ASCII
letter and therefore never itself a key of the table. -/
theorem accentTable_snd_not_key :
    ∀ p ∈ accentTable, accentTable.find? (fun q => q.1 == p.2) = none := by decide

/-- The character transliteration is idempotent. -/
theorem unidecodeChar_fix (c : Char) : unidecodeChar (unidecodeChar c) = unidecodeChar c := by
  cases hf : accentTable.find? (fun p => p.1 == c) with
  | none =>
    have h1 : unidecodeChar c = c := by unfold unidecodeChar; rw [hf]
    rw [h1, h1]
  | some p =>
    have h1 : unidecodeChar c = p.2 := by unfold unidecodeChar; rw [hf]
    have h2 : accentTable.find? (fun q => q.1 == p.2) = none :=
      accentTable_snd_not_key p (List.mem_of_find?_eq_some hf)
    have h3 : unidecodeChar p.2 = p.2 := by unfold unidecodeChar; rw [h2]
    rw [h1, h3]

/-- Idempotence of the transliteration lifted to character lists. -/
theorem unidecodeL_idem (l : List Char) :
    (l.map unidecodeChar).map unidecodeChar = l.map unidecodeChar := by
  induction l with
  | nil => rfl
  | cons c t ih => simp [List.map, ih, unidecodeChar_fix]

/-- The `unidecode` model is idempotent: normalizing an already-normalized
selector changes nothing. -/
theorem unidecode_idem (s : String) : unidecode (unidecode s) = unidecode s :=
  congrArg String.mk (unidecodeL_idem s.toList)

/-- C1: the claim says the alias annotation set by `Attribute.from_dict`
equals the alias name the static table maps to the code (for example `I175`
is annotated with `rain`), and is `None` for codes outside the table.  The
code instead returns the enum member NAME - the code itself - from
`lookup_alias_by_code`, contradicting that method's own docstring
("Lookup a single alias by code"): `I175` is annotated with alias `I175`,
not `rain`, while the table member for `I175` does carry alias `rain`.
Only the `None`-for-absent-code half of the claim holds. -/
theorem C1_alias_annotation_bug :
    Pkg.lookup_alias_by_code "I175" = some "I175" ∧
    (Pkg.Attribute.from_dict
      ⟨"I175", "Horaria", "mm", "PRECIPITACAO TOTAL, HORARIO (AUT)", "Precipitacao"⟩).«alias» =
      some "I175" ∧
    (Pkg.aliasMembers.find? (fun m => m.code == "I175")).map (fun m => m.«alias») = some "rain" ∧
    some "I175" ≠ some "rain" ∧
    Pkg.lookup_alias_by_code "I999" = none := by
  refine ⟨rfl, rfl, rfl, ?_, rfl⟩
  decide

/-- A single alias selector resolves through the walrus alias branch of
`_parse_attrs` when it does not look like an attribute code. -/
theorem parseAttrs_alias_step (attrs : List Pkg.Attribute) (freq st_type sel code : String)
    (hre : attrCodeRe sel = false)
    (hlook : Pkg.lookup_code_by_alias sel freq st_type = some code) :
    Pkg.parse_attrs attrs freq st_type (Selector.list [sel]) = Except.ok [code] := by
  simp [Pkg.parse_attrs, Pkg.parseAttrsLoop, hre, hlook]

/-- A single alias selector resolves through the dictionary-membership
branch of `__attr_codes`. -/
theorem attrCodes_alias_step (attr_response : List AttrEntry) (d : List (String × String))
    (sel code : String) (hlook : d.lookup sel = some code) :
    Cls.attr_codes attr_response (some d) (Selector.list [sel]) = Except.ok [code] := by
  simp [Cls.attr_codes, Cls.attrLoop, hlook]

/-- C4: for every alias defined in the static alias table for a
(frequency, automatic) pair, resolving that alias as an attribute selector
yields the documented code, in the package resolver (`_parse_attrs` over
the `AttrAliases` enum) as well as in the class resolver (`__attr_codes`
over the `_attr_aliases` dictionaries); in particular `rain` resolves to
`I175` under (hourly, automatic) and to `I209` under (monthly, automatic). -/
theorem C4_alias_table_resolution :
    (∀ (attrs : List Pkg.Attribute), ∀ m ∈ Pkg.aliasMembers,
      Pkg.parse_attrs attrs m.freq m.st_type (Selector.list [m.«alias»]) = Except.ok [m.code]) ∧
    (∀ (attr_response : List AttrEntry), ∀ m ∈ Pkg.aliasMembers,
      Cls.attr_codes attr_response (Cls.init_aliases m.freq m.st_type)
        (Selector.list [m.«alias»]) = Except.ok [m.code]) ∧
    Pkg.lookup_code_by_alias "rain" "h" "automatic" = some "I175" ∧
    Pkg.lookup_code_by_alias "rain" "m" "automatic" = some "I209" := by
  refine ⟨?_, ?_, rfl, rfl⟩
  · intro attrs m hm
    have h1 : attrCodeRe m.«alias» = false := by
      have hall : ∀ m2 ∈ Pkg.aliasMembers, attrCodeRe m2.«alias» = false := by decide
      exact hall m hm
    have h2 : Pkg.lookup_code_by_alias m.«alias» m.freq m.st_type = some m.code := by
      have hall : ∀ m2 ∈ Pkg.aliasMembers,
          Pkg.lookup_code_by_alias m2.«alias» m2.freq m2.st_type = some m2.code := by decide
      exact hall m hm
    exact parseAttrs_alias_step attrs _ _ _ _ h1 h2
  · intro attr_response m hm
    have h3 : (Cls.init_aliases m.freq m.st_type).bind (fun d => d.lookup m.«alias») =
        some m.code := by
      have hall : ∀ m2 ∈ Pkg.aliasMembers,
          (Cls.init_aliases m2.freq m2.st_type).bind (fun d => d.lookup m2.«alias») =
            some m2.code := by decide
      exact hall m hm
    cases hinit : Cls.init_aliases m.freq m.st_type with
    | none => rw [hinit] at h3; cases h3
    | some d =>
      rw [hinit] at h3
      simp only [Option.bind] at h3
      exact attrCodes_alias_step attr_response d _ _ h3

/-- Witness for C4 at the concrete member (`I175`, `rain`, hourly,
automatic). -/
theorem C4_alias_table_resolution_witness :
    Pkg.parse_attrs [] "h" "automatic" (Selector.list ["rain"]) = Except.ok ["I175"] :=
  C4_alias_table_resolution.1 [] ⟨"I175", "rain", "h", "automatic"⟩ (by decide)

/-- C5: the claim says the station fetch with `region` omitted issues one
request per each of the five fixed region codes and concatenates the
results in region-table order.  That is exactly what the class variant
`query_sts` does, but the `api.py` variant `available_stations` evaluates
`region.upper()` BEFORE its `region is not None` test, so an omitted
region raises `AttributeError` there before any request is issued; its
docstring (`st_codes`: both `None` returns all codes) shows the five-request
behaviour is the intent and the inverted guard a slip.  With a region
given, exactly one request is issued. -/
theorem C5_region_fanout (fetch : String → String → List StEntry) (r : String) :
    Api.available_stations fetch "automatic" none =
      Except.error (PyErr.attributeError Api.noneUpperMsg) ∧
    (Cls.query_sts fetch "automatic" none).1 =
      [("T/R", "N"), ("T/R", "NO"), ("T/R", "S"), ("T/R", "SU"), ("T/R", "CO")] ∧
    (Cls.query_sts fetch "automatic" none).2 =
      fetch "T/R" "N" ++ fetch "T/R" "NO" ++ fetch "T/R" "S" ++ fetch "T/R" "SU" ++
        fetch "T/R" "CO" ∧
    Cls.regions.length = 5 ∧
    Cls.query_sts fetch "automatic" (some r) = ([("T/R", pyUpper r)], fetch "T/R" (pyUpper r)) := by
  refine ⟨rfl, rfl, ?_, rfl, rfl⟩
  show ((((([] : List StEntry) ++ fetch "T/R" "N") ++ fetch "T/R" "NO") ++ fetch "T/R" "S") ++
      fetch "T/R" "SU") ++ fetch "T/R" "CO" = _
  simp [List.append_assoc]

/-- C6: resolving the `"all"` sentinel for attributes returns the code of
every entry of the fetched catalog, verbatim and in catalog order, in both
the class resolver and the package resolver, so the length of the result
equals the catalog size. -/
theorem C6_all_sentinel (attr_response : List AttrEntry)
    (aliases : Option (List (String × String))) (attrs : List Pkg.Attribute)
    (freq st_type : String) :
    Cls.attr_codes attr_response aliases Selector.all =
      Except.ok (attr_response.map (fun e => e.CODIGO)) ∧
    Pkg.parse_attrs attrs freq st_type Selector.all =
      Except.ok (attrs.map (fun a => a.code)) ∧
    (attr_response.map (fun e => e.CODIGO)).length = attr_response.length ∧
    (attrs.map (fun a => a.code)).length = attrs.length := by
  refine ⟨rfl, rfl, ?_, ?_⟩ <;> simp

/-- C10: with station type `conventional`, attribute resolution over any
non-empty explicit selector list raises before any code-pattern or
description matching is attempted: in the class variant `_aliases` is
`None` and the very first membership test `selector in self._aliases`
raises `TypeError`, and in the `api.py` variant the alias-table selection
raises unconditionally - even when the selector is a valid catalog code,
and in `api.py` even before the selector list is inspected at all. -/
theorem C10_conventional_always_raises (attr_response catalog : List AttrEntry)
    (sels : List String) (freq : String) («variables» : Option (List String))
    (hne : sels ≠ []) (hf : freqTypes.contains (pyLower freq) = true) :
    Cls.attr_codes attr_response (Cls.init_aliases freq "conventional") (Selector.list sels) =
      Except.error (PyErr.typeError Cls.noneMembershipMsg) ∧
    Api.var_codes catalog freq "conventional" «variables» =
      Except.error (PyErr.exception Api.aliasOnlyAutoMsg) := by
  constructor
  · have h0 : Cls.init_aliases freq "conventional" = none := rfl
    rw [h0]
    cases sels with
    | nil => exact absurd rfl hne
    | cons s t => simp [Cls.attr_codes, Cls.attrLoop]
  · unfold Api.var_codes
    rw [hf]
    have h2 : stTypes.contains (pyLower "conventional") = true := rfl
    have h3 : (("conventional" : String) == "automatic") = false := rfl
    simp [h2, h3]
    decide

/-- Witness for C10: the selector `I175` is a valid code of the supplied
catalog, yet both conventional-station resolvers raise. -/
theorem C10_conventional_always_raises_witness :
    Cls.attr_codes [⟨"I175", "PRECIPITACAO TOTAL"⟩] (Cls.init_aliases "h" "conventional")
      (Selector.list ["I175"]) = Except.error (PyErr.typeError Cls.noneMembershipMsg) ∧
    Api.var_codes [⟨"I175", "PRECIPITACAO TOTAL"⟩] "h" "conventional" (some ["I175"]) =
      Except.error (PyErr.exception Api.aliasOnlyAutoMsg) :=
  C10_conventional_always_raises [⟨"I175", "PRECIPITACAO TOTAL"⟩]
    [⟨"I175", "PRECIPITACAO TOTAL"⟩] ["I175"] "h" (some ["I175"]) (by decide) (by decide)

/-- The class station loop is invariant under pre-normalizing the selector
list with `unidecode`, because the loop itself normalizes each selector
first and the normalization is idempotent. -/
theorem stLoopCls_unidecode (cat : List StEntry) (sels : List String) (acc : List String) :
    Cls.stLoop cat (sels.map unidecode) acc = Cls.stLoop cat sels acc := by
  induction sels generalizing acc with
  | nil => rfl
  | cons s t ih =>
    simp only [List.map_cons]
    simp only [Cls.stLoop, unidecode_idem]
    split
    · split
      · exact ih _
      · rfl
    · split
      · split
        · exact ih _
        · rfl
      · rfl

/-- `__st_codes` is invariant under pre-normalizing its selector list. -/
theorem stCodesCls_unidecode (cat : List StEntry) (sels : List String) :
    Cls.st_codes cat (Selector.list (sels.map unidecode)) =
      Cls.st_codes cat (Selector.list sels) := by
  cases sels with
  | nil => rfl
  | cons s t =>
    show Cls.stLoop cat ((s :: t).map unidecode) [] = Cls.stLoop cat (s :: t) []
    exact stLoopCls_unidecode cat (s :: t) []

/-- The package station loop is invariant under pre-normalizing the
selector list with `unidecode`. -/
theorem parseStsLoop_unidecode (cat : List Pkg.Station) (sels : List String)
    (acc : List Pkg.StItem) :
    Pkg.parseStsLoop cat (sels.map unidecode) acc = Pkg.parseStsLoop cat sels acc := by
  induction sels generalizing acc with
  | nil => rfl
  | cons s t ih =>
    simp only [List.map_cons]
    simp only [Pkg.parseStsLoop, unidecode_idem]
    split
    · exact ih _
    · split
      · exact ih _
      · rfl

/-- `_parse_sts` is invariant under pre-normalizing its selector list. -/
theorem parseSts_unidecode (cat : List Pkg.Station) (sels : List String) :
    Pkg.parse_sts cat (Selector.list (sels.map unidecode)) =
      Pkg.parse_sts cat (Selector.list sels) := by
  simp only [Pkg.parse_sts, parseStsLoop_unidecode]

/-- C7: resolving station selectors containing diacritics equals resolving
their ASCII-normalized forms against the same catalog snapshot, in both the
class resolver and the package resolver, because each loop first applies
`unidecode` to the selector and `unidecode` is idempotent; in particular
the normalized form of the example selector is its ASCII spelling. -/
theorem C7_unidecode_normalization (st_response : List StEntry) (cat : List Pkg.Station)
    (sels : List String) :
    Cls.st_codes st_response (Selector.list (sels.map unidecode)) =
      Cls.st_codes st_response (Selector.list sels) ∧
    Pkg.parse_sts cat (Selector.list (sels.map unidecode)) =
      Pkg.parse_sts cat (Selector.list sels) ∧
    unidecode "São José do Rio Preto SP" = "Sao Jose do Rio Preto SP" :=
  ⟨stCodesCls_unidecode st_response sels, parseSts_unidecode cat sels, rfl⟩

/-- The explicit-list branch of `_parse_sts` can only produce `Ok None` or
an error, never a list of codes. -/
theorem parse_sts_list_cases (cat : List Pkg.Station) (sels : List String) :
    Pkg.parse_sts cat (Selector.list sels) = Except.ok none ∨
    ∃ e, Pkg.parse_sts cat (Selector.list sels) = Except.error e := by
  have hdef : Pkg.parse_sts cat (Selector.list sels) =
      (match Pkg.parseStsLoop cat sels [] with
        | Except.ok _ => Except.ok none
        | Except.error e => Except.error e) := rfl
  rw [hdef]
  cases Pkg.parseStsLoop cat sels [] with
  | ok v => exact Or.inl rfl
  | error e => exact Or.inr ⟨e, rfl⟩

/-- C9: for every explicit station selector list, `_parse_sts` in the
newest variant falls off the end of the function and returns `None`, so a
successful `prepare_payload` produces a payload whose `estacoes` field is
`None` rather than a list of station codes. -/
theorem C9_estacoes_none (attrs_catalog : List Pkg.Attribute) (cat : List Pkg.Station)
    (freq st_type email dec : String) (attr_selector : Selector) (sels : List String)
    (p : Pkg.Payload)
    (h : Pkg.prepare_payload attrs_catalog cat freq st_type email (Selector.list sels)
        attr_selector dec = Except.ok p) :
    p.estacoes = none ∧ Pkg.parse_sts cat (Selector.list sels) = Except.ok none := by
  have hs := parse_sts_list_cases cat sels
  unfold Pkg.prepare_payload at h
  cases hA : Pkg.parse_attrs attrs_catalog freq st_type attr_selector with
  | error e => rw [hA] at h; exact (Except.noConfusion h)
  | ok attributes =>
    rw [hA] at h
    rcases hs with hs | ⟨e, hs⟩
    · rw [hs] at h
      cases hM : Pkg.stMarkTable.lookup st_type with
      | none => rw [hM] at h; exact (Except.noConfusion h)
      | some tEst =>
        rw [hM] at h
        cases hD : Pkg.decimalNew.lookup dec with
        | none => rw [hD] at h; exact (Except.noConfusion h)
        | some tp =>
          rw [hD] at h
          injection h with h2
          rw [← h2]
          exact ⟨rfl, hs⟩
    · rw [hs] at h
      exact (Except.noConfusion h)

/-- Witness for C9 at a concrete catalog and the selector list `["A713"]`. -/
theorem C9_estacoes_none_witness :
    ({ email := "e", tipo_dados := "H", tipo_estacao := "T", variaveis := [],
       estacoes := none, data_inicio := "", data_fim := "",
       tipo_pontuacao := "P" } : Pkg.Payload).estacoes = none ∧
    Pkg.parse_sts [⟨"A713", "X", "SP"⟩] (Selector.list ["A713"]) = Except.ok none :=
  C9_estacoes_none [] [⟨"A713", "X", "SP"⟩] "h" "automatic" "e" "." Selector.all ["A713"]
    { email := "e", tipo_dados := "H", tipo_estacao := "T", variaveis := [],
      estacoes := none, data_inicio := "", data_fim := "", tipo_pontuacao := "P" } rfl

/-- C2 counterexample: the claim says a city-state selector resolves to ALL
matching catalog entries, with zero matches yielding an empty contribution.
In the class variant `__st_codes` (one of the claim's sources) the
`next(...)` idiom appends only the FIRST matching code - here `A001` even
though both `A001` and `A002` match - and a selector with zero matches
raises `ValueError` instead of contributing an empty list. -/
theorem C2_first_match_collapse :
    Cls.st_codes [⟨"A001", "X", "SP"⟩, ⟨"A002", "X", "SP"⟩] (Selector.list ["X-SP"]) =
      Except.ok ["A001"] ∧
    (([⟨"A001", "X", "SP"⟩, ⟨"A002", "X", "SP"⟩] : List StEntry).filter
      (fun e => e.SG_ESTADO == "SP" && e.DC_NOME == "X")).map (fun e => e.CD_ESTACAO) =
      ["A001", "A002"] ∧
    Cls.st_codes [⟨"A001", "X", "SP"⟩] (Selector.list ["Y-SP"]) =
      Except.error (PyErr.valueError Cls.stUnresolvedMsg) :=
  ⟨rfl, rfl, rfl⟩

/-- C2 as amended: in the `api.py` variant `st_codes`, a single city-state
selector resolves to the codes of ALL catalog entries whose state equals
the parsed state and whose city equals the parsed city, both uppercased -
zero, one or many codes, zero matches yielding an empty list. -/
theorem C2_city_state_all_matches (fetch : String → String → List StEntry) (s g1 g2 : String)
    (h : cityStRe s = some (g1, g2)) :
    Api.st_codes fetch "automatic" (some "N") (some [s]) =
      Except.ok (((fetch "/T/R/" "N").filter
        (fun e => e.SG_ESTADO == pyUpper g2 && e.DC_NOME == pyUpper g1)).map
        (fun e => e.CD_ESTACAO)) := by
  have h1 : stTypes.contains (pyLower "automatic") = true := rfl
  have h2 : regionsUpper.contains (pyUpper "N") = true := rfl
  have h3 : Api.stFragTable.lookup "automatic" = some "/T/R/" := rfl
  simp only [Api.st_codes, Api.available_stations, h1, h2, h3, Api.stLoop, h,
    Bool.true_eq_false, if_false]

/-- Witness for the amended C2: `X-SP` resolves to the two matching codes
of a three-entry catalog. -/
theorem C2_city_state_all_matches_witness :
    Api.st_codes (fun _ _ => [⟨"A1", "X", "SP"⟩, ⟨"A2", "X", "SP"⟩, ⟨"B1", "Y", "SP"⟩])
      "automatic" (some "N") (some ["X-SP"]) = Except.ok ["A1", "A2"] := by
  have h := C2_city_state_all_matches
    (fun _ _ => [⟨"A1", "X", "SP"⟩, ⟨"A2", "X", "SP"⟩, ⟨"B1", "Y", "SP"⟩]) "X-SP" "X" "SP" rfl
  rw [h]
  rfl

/-- A catalog with no entry coded `c` has no first entry coded `c`. -/
theorem find?_code_eq_none (l : List AttrEntry) (c : String)
    (h : c ∉ l.map (fun e => e.CODIGO)) :
    l.find? (fun e2 => e2.CODIGO == c) = none := by
  rw [List.find?_eq_none]
  intro e he hbe
  exact h (List.mem_map.mpr ⟨e, he, by simpa using hbe⟩)

/-- A catalog containing the code `c` has a first entry coded `c`. -/
theorem find?_code_eq_some (l : List AttrEntry) (c : String)
    (h : c ∈ l.map (fun e => e.CODIGO)) :
    ∃ e, l.find? (fun e2 => e2.CODIGO == c) = some e ∧ e.CODIGO = c := by
  cases hf : l.find? (fun e2 => e2.CODIGO == c) with
  | some e =>
    refine ⟨e, rfl, ?_⟩
    have hp := List.find?_some hf
    simpa using hp
  | none =>
    exfalso
    rw [List.find?_eq_none] at hf
    obtain ⟨e, he, hec⟩ := List.mem_map.mp h
    exact hf e he (by simpa using hec)

/-- C3 counterexample: the claim requires a pattern-matching selector to be
accepted uppercased only when its exact code exists in the catalog.  The
`api.py` variant accepts `i999` verbatim - neither uppercased nor checked
against the catalog, which does not contain `I999` - and the newest variant
rejects the lowercase `i175` even though `I175` is in its catalog. -/
theorem C3_pattern_without_catalog_check :
    Api.var_codes [⟨"I175", "PRECIP"⟩] "h" "automatic" (some ["i999"]) = Except.ok ["i999"] ∧
    attrCodeRe "i999" = true ∧
    ¬ (("I999" : String) ∈ ([⟨"I175", "PRECIP"⟩] : List AttrEntry).map (fun e => e.CODIGO)) ∧
    Pkg.parse_attrs [⟨"I175", "Horaria", "mm", "PRECIP", "c", some "I175"⟩] "h" "automatic"
      (Selector.list ["i175"]) = Except.error (PyErr.valueError Pkg.attrSelectorMsg) := by
  refine ⟨rfl, rfl, ?_, rfl⟩
  decide

/-- C3 as amended: in the class variant `__attr_codes`, a selector that
matches the attribute-code pattern and is not an alias key is accepted as
its uppercased form exactly when that form is a catalog code, and rejected
with `ValueError` when it is not. -/
theorem C3_code_rule_class (attr_response : List AttrEntry) (d : List (String × String))
    (sel : String) (hpat : attrCodeRe sel = true) (halias : d.lookup sel = none) :
    (pyUpper sel ∈ attr_response.map (fun e => e.CODIGO) →
      Cls.attr_codes attr_response (some d) (Selector.list [sel]) =
        Except.ok [pyUpper sel]) ∧
    (pyUpper sel ∉ attr_response.map (fun e => e.CODIGO) →
      Cls.attr_codes attr_response (some d) (Selector.list [sel]) =
        Except.error (PyErr.valueError Cls.attrUnresolvedMsg)) := by
  constructor
  · intro hmem
    obtain ⟨e, hf, hec⟩ := find?_code_eq_some attr_response (pyUpper sel) hmem
    simp [Cls.attr_codes, Cls.attrLoop, halias, hpat, hf, hec]
  · intro hmem
    have hf := find?_code_eq_none attr_response (pyUpper sel) hmem
    simp [Cls.attr_codes, Cls.attrLoop, halias, hpat, hf]

/-- Witness for the amended C3: `i175` is accepted as `I175` by the class
resolver when `I175` is in the catalog. -/
theorem C3_code_rule_class_witness :
    Cls.attr_codes [⟨"I175", "PRECIP"⟩] (some hourlyAliases) (Selector.list ["i175"]) =
      Except.ok ["I175"] :=
  (C3_code_rule_class [⟨"I175", "PRECIP"⟩] hourlyAliases "i175" rfl rfl).1 (by decide)

/-- A successful `gen_payload` carries the decimal marker that the
`decimal` table maps its `dec` argument to. -/
theorem gen_payload_decimal (catalog : List AttrEntry) (email freq st : String)
    (in_date fn_date : Api.DateArg) (dec tp : String) (var_sel : Option (List String))
    (st_sel : List String) (p : Api.Payload)
    (hd : Api.decimalApi.lookup dec = some tp)
    (h : Api.gen_payload catalog email freq st in_date fn_date dec var_sel st_sel =
      Except.ok p) :
    p.tipo_pontuacao = tp := by
  unfold Api.gen_payload at h
  rw [hd] at h
  repeat' split at h
  all_goals try exact (Except.noConfusion h)
  all_goals injection h with h2
  all_goals subst h2
  all_goals simp_all

/-- A successful `prepare_payload` carries the decimal marker that the
`decimal` table maps its `dec` argument to. -/
theorem prepare_payload_decimal (attrs_catalog : List Pkg.Attribute) (cat : List Pkg.Station)
    (freq st_type email dec tp : String) (ssel asel : Selector) (p : Pkg.Payload)
    (hd : Pkg.decimalNew.lookup dec = some tp)
    (h : Pkg.prepare_payload attrs_catalog cat freq st_type email ssel asel dec =
      Except.ok p) :
    p.tipo_pontuacao = tp := by
  unfold Pkg.prepare_payload at h
  rw [hd] at h
  repeat' split at h
  all_goals try exact (Except.noConfusion h)
  all_goals injection h with h2
  all_goals subst h2
  all_goals simp_all

/-- When both selector parses succeed and the station-type lookup succeeds,
`prepare_payload` with a `dec` outside the decimal table raises `KeyError`
for that `dec` - during assembly, after all parsing. -/
theorem prepare_payload_keyerror (attrs_catalog : List Pkg.Attribute) (cat : List Pkg.Station)
    (freq st_type email dec : String) (ssel asel : Selector)
    (attributes : List String) (stations : Option (List String)) (tEst : String)
    (hA : Pkg.parse_attrs attrs_catalog freq st_type asel = Except.ok attributes)
    (hS : Pkg.parse_sts cat ssel = Except.ok stations)
    (hM : Pkg.stMarkTable.lookup st_type = some tEst)
    (hD : Pkg.decimalNew.lookup dec = none) :
    Pkg.prepare_payload attrs_catalog cat freq st_type email ssel asel dec =
      Except.error (PyErr.keyError dec) := by
  unfold Pkg.prepare_payload
  rw [hA, hS, hM, hD]

/-- With valid frequency and station type, `gen_payload` rejects a `dec`
outside the decimal table with `ValueError` before dates are parsed,
before `var_codes` is called and before the payload is assembled. -/
theorem gen_payload_invalid_decimal (catalog : List AttrEntry) (email freq st : String)
    (in_date fn_date : Api.DateArg) (dec : String) (var_sel : Option (List String))
    (st_sel : List String)
    (hf : freqTypes.contains (pyLower freq) = true)
    (hs : stTypes.contains (pyLower st) = true)
    (hd : Api.decimalApi.lookup dec = none) :
    Api.gen_payload catalog email freq st in_date fn_date dec var_sel st_sel =
      Except.error (PyErr.valueError "Invalid decimal.") := by
  unfold Api.gen_payload
  rw [hf, hs, hd]
  simp

/-- C8 counterexample: the claim says any `dec` other than `.` and `,`
raises the validation error before the payload is assembled.  In the
package variant `prepare_payload` (one of the claim's sources) an invalid
`dec` instead raises `KeyError` - which is not a `ValueError` - and only
DURING assembly: with an unresolvable attribute selector the selector error
surfaces first, showing `dec` is not validated up front. -/
theorem C8_keyerror_during_assembly :
    Pkg.prepare_payload [] [] "h" "automatic" "e" Selector.all Selector.all ";" =
      Except.error (PyErr.keyError ";") ∧
    (∀ msg, PyErr.keyError ";" ≠ PyErr.valueError msg) ∧
    Pkg.prepare_payload [] [] "h" "automatic" "e" Selector.all (Selector.list ["zzz"]) ";" =
      Except.error (PyErr.valueError Pkg.attrSelectorMsg) := by
  refine ⟨rfl, ?_, rfl⟩
  intro msg hmsg
  exact PyErr.noConfusion hmsg

/-- C8 as amended: both payload builders set the decimal marker to `P` for
`dec="."` and to `V` for `dec=","`; for any other `dec`, `gen_payload`
(`api.py`) raises `ValueError` before assembling the payload, while
`prepare_payload` (package variant) raises `KeyError` during assembly,
after selector parsing. -/
theorem C8_decimal_marker_behaviour (catalog : List AttrEntry)
    (attrs_catalog : List Pkg.Attribute) (cat : List Pkg.Station)
    (email freq st st_type dec : String) (in_date fn_date : Api.DateArg)
    (var_sel : Option (List String)) (st_sel : List String) (ssel asel : Selector)
    (hf : freqTypes.contains (pyLower freq) = true)
    (hs : stTypes.contains (pyLower st) = true)
    (hd : Api.decimalApi.lookup dec = none) :
    Api.gen_payload catalog email freq st in_date fn_date dec var_sel st_sel =
      Except.error (PyErr.valueError "Invalid decimal.") ∧
    (∀ p : Api.Payload,
      Api.gen_payload catalog email freq st in_date fn_date "." var_sel st_sel =
        Except.ok p → p.tipo_pontuacao = "P") ∧
    (∀ p : Api.Payload,
      Api.gen_payload catalog email freq st in_date fn_date "," var_sel st_sel =
        Except.ok p → p.tipo_pontuacao = "V") ∧
    (∀ p : Pkg.Payload,
      Pkg.prepare_payload attrs_catalog cat freq st_type email ssel asel "." =
        Except.ok p → p.tipo_pontuacao = "P") ∧
    (∀ p : Pkg.Payload,
      Pkg.prepare_payload attrs_catalog cat freq st_type email ssel asel "," =
        Except.ok p → p.tipo_pontuacao = "V") ∧
    (∀ (attributes : List String) (stations : Option (List String)) (tEst : String),
      Pkg.parse_attrs attrs_catalog freq st_type asel = Except.ok attributes →
      Pkg.parse_sts cat ssel = Except.ok stations →
      Pkg.stMarkTable.lookup st_type = some tEst →
      Pkg.decimalNew.lookup dec = none →
      Pkg.prepare_payload attrs_catalog cat freq st_type email ssel asel dec =
        Except.error (PyErr.keyError dec)) := by
  refine ⟨gen_payload_invalid_decimal catalog email freq st in_date fn_date dec var_sel
      st_sel hf hs hd,
    fun p h => gen_payload_decimal catalog email freq st in_date fn_date "." "P" var_sel
      st_sel p rfl h,
    fun p h => gen_payload_decimal catalog email freq st in_date fn_date "," "V" var_sel
      st_sel p rfl h,
    fun p h => prepare_payload_decimal attrs_catalog cat freq st_type email "." "P" ssel
      asel p rfl h,
    fun p h => prepare_payload_decimal attrs_catalog cat freq st_type email "," "V" ssel
      asel p rfl h,
    fun attributes stations tEst hA hS hM hD =>
      prepare_payload_keyerror attrs_catalog cat freq st_type email dec ssel asel
        attributes stations tEst hA hS hM hD⟩

/-- Witness for the amended C8: an invalid decimal separator is rejected by
`gen_payload` with `ValueError` at a concrete input. -/
theorem C8_decimal_marker_behaviour_witness :
    Api.gen_payload [] "e" "h" "automatic" (Api.DateArg.date 2020 12 1)
      (Api.DateArg.date 2021 1 1) ";" none [] =
      Except.error (PyErr.valueError "Invalid decimal.") :=
  (C8_decimal_marker_behaviour [] [] [] "e" "h" "automatic" "automatic" ";"
    (Api.DateArg.date 2020 12 1) (Api.DateArg.date 2021 1 1) none [] Selector.all
    Selector.all rfl rfl rfl).1
